import Mathlib

set_option maxRecDepth 100000

/-!
Verification of the certifi-ai document-certification pipeline.

This file gives a shallow embedding, in Lean 4, of the decision cascade of
the certifi-ai repository (src/pipeline/): the claim evaluator, the role
inference engine, the amount-selection logic of the claim extractor, the
family classifier's confidence computation, the policy resolver, the
decision engine, and the orchestrator (`DocumentPipeline.process`).

Modelling conventions:
 - Python floats are modelled as `ℚ`; every constant in the source
   (0.85, 0.70, ...) is exactly representable, and all comparisons in the
   source are against such constants, so no float-rounding issue can change
   a branch.
 - The regex layer is abstracted as per-pattern match counts / booleans
   (`ClaimSignals`, `RoleScore`, context flags): the logic downstream of
   the regex matching is embedded verbatim.
 - `hashlib.sha256` is embedded as an executable SHA-256 over byte lists
   (`sha256hex`), validated below against the standard test vectors.
   Python's `.encode('utf-8')` agrees with `strBytes` on the ASCII strings
   hashed here.
 - Python exceptions are modelled with `Except String`; an uncaught
   exception in a pipeline stage is an `Except.error` value.
-/

namespace Certifi

/-! ## SHA-256 (model of `hashlib.sha256(...).hexdigest()`) -/

/-- 2^32, the modulus for 32-bit words. -/
def w32 : Nat := 4294967296

/-- Right-rotation of a 32-bit word. -/
def rotr (n x : Nat) : Nat := ((x >>> n) ||| (x <<< (32 - n))) % w32

/-- SHA-256 sigma0 (message schedule). -/
def ssig0 (x : Nat) : Nat := (rotr 7 x) ^^^ (rotr 18 x) ^^^ (x >>> 3)

/-- SHA-256 sigma1 (message schedule). -/
def ssig1 (x : Nat) : Nat := (rotr 17 x) ^^^ (rotr 19 x) ^^^ (x >>> 10)

/-- SHA-256 Sigma0 (compression). -/
def bsig0 (x : Nat) : Nat := (rotr 2 x) ^^^ (rotr 13 x) ^^^ (rotr 22 x)

/-- SHA-256 Sigma1 (compression). -/
def bsig1 (x : Nat) : Nat := (rotr 6 x) ^^^ (rotr 11 x) ^^^ (rotr 25 x)

/-- SHA-256 choice function; complement is xor against the 32-bit mask. -/
def ch (x y z : Nat) : Nat := (x &&& y) ^^^ ((x ^^^ 4294967295) &&& z)

/-- SHA-256 majority function. -/
def maj (x y z : Nat) : Nat := (x &&& y) ^^^ (x &&& z) ^^^ (y &&& z)

/-- The 64 SHA-256 round constants. -/
def sha256K : List Nat :=
  [1116352408, 1899447441, 3049323471, 3921009573, 961987163, 1508970993,
   2453635748, 2870763221, 3624381080, 310598401, 607225278, 1426881987,
   1925078388, 2162078206, 2614888103, 3248222580, 3835390401, 4022224774,
   264347078, 604807628, 770255983, 1249150122, 1555081692, 1996064986,
   2554220882, 2821834349, 2952996808, 3210313671, 3336571891, 3584528711,
   113926993, 338241895, 666307205, 773529912, 1294757372, 1396182291,
   1695183700, 1986661051, 2177026350, 2456956037, 2730485921, 2820302411,
   3259730800, 3345764771, 3516065817, 3600352804, 4094571909, 275423344,
   430227734, 506948616, 659060556, 883997877, 958139571, 1322822218,
   1537002063, 1747873779, 1955562222, 2024104815, 2227730452, 2361852424,
   2428436474, 2756734187, 3204031479, 3329325298]

/-- Running state of the eight SHA-256 working variables. -/
structure Hash8 where
  a : Nat
  b : Nat
  c : Nat
  d : Nat
  e : Nat
  f : Nat
  g : Nat
  h : Nat
deriving DecidableEq, Repr

/-- The SHA-256 initial hash value. -/
def sha256Init : Hash8 :=
  ⟨1779033703, 3144134277, 1013904242, 2773480762,
   1359893119, 2600822924, 528734635, 1541459225⟩

/-- Big-endian byte decomposition of a natural number into `count` bytes. -/
def natToBytesBE (n count : Nat) : List Nat :=
  (List.range count).map (fun i => (n >>> (8 * (count - 1 - i))) &&& 255)

/-- SHA-256 padding: append 0x80, zeros to 56 mod 64, then the 64-bit
bit-length, big-endian. -/
def padMessage (msg : List Nat) : List Nat :=
  let len := msg.length
  let padZeros := (119 - len % 64) % 64
  msg ++ [128] ++ List.replicate padZeros 0 ++ natToBytesBE (8 * len) 8

/-- Split a padded message into its 64-byte blocks. -/
def toBlocks (padded : List Nat) : List (List Nat) :=
  (List.range (padded.length / 64)).map (fun i => (padded.drop (64 * i)).take 64)

/-- The 16 initial 32-bit words of one block, big-endian. -/
def blockWords (b : List Nat) : List Nat :=
  (List.range 16).map (fun i =>
    b.getD (4 * i) 0 * 16777216 + b.getD (4 * i + 1) 0 * 65536 +
    b.getD (4 * i + 2) 0 * 256 + b.getD (4 * i + 3) 0)

/-- Extend the 16 block words to the 64-entry message schedule. -/
def msgSchedule (ws : List Nat) : Array Nat :=
  (List.range 48).foldl
    (fun (arr : Array Nat) t =>
      let i := t + 16
      arr.push ((ssig1 (arr.getD (i - 2) 0) + arr.getD (i - 7) 0 +
                 ssig0 (arr.getD (i - 15) 0) + arr.getD (i - 16) 0) % w32))
    ws.toArray

/-- One SHA-256 compression round. -/
def sha256Round (w : Array Nat) (s : Hash8) (t : Nat) : Hash8 :=
  let t1 := (s.h + bsig1 s.e + ch s.e s.f s.g + sha256K.getD t 0 + w.getD t 0) % w32
  let t2 := (bsig0 s.a + maj s.a s.b s.c) % w32
  ⟨(t1 + t2) % w32, s.a, s.b, s.c, (s.d + t1) % w32, s.e, s.f, s.g⟩

/-- Compress one 64-byte block into the running hash state. -/
def compressBlock (H : Hash8) (block : List Nat) : Hash8 :=
  let w := msgSchedule (blockWords block)
  let s := (List.range 64).foldl (sha256Round w) H
  ⟨(H.a + s.a) % w32, (H.b + s.b) % w32, (H.c + s.c) % w32, (H.d + s.d) % w32,
   (H.e + s.e) % w32, (H.f + s.f) % w32, (H.g + s.g) % w32, (H.h + s.h) % w32⟩

/-- SHA-256 of a byte list, as the eight 32-bit digest words. -/
def sha256Words (msg : List Nat) : Hash8 :=
  (toBlocks (padMessage msg)).foldl compressBlock sha256Init

/-- Lowercase hex digit. -/
def hexChar (n : Nat) : Char :=
  if n < 10 then Char.ofNat (48 + n) else Char.ofNat (87 + n)

/-- A 32-bit word as eight lowercase hex characters. -/
def word32Hex (x : Nat) : String :=
  String.mk ((List.range 8).map (fun i => hexChar ((x >>> (28 - 4 * i)) &&& 15)))

/-- `hashlib.sha256(msg).hexdigest()`: the 64-character lowercase hex digest. -/
def sha256hex (msg : List Nat) : String :=
  let d := sha256Words msg
  word32Hex d.a ++ word32Hex d.b ++ word32Hex d.c ++ word32Hex d.d ++
  word32Hex d.e ++ word32Hex d.f ++ word32Hex d.g ++ word32Hex d.h

/-- Bytes of an ASCII string; agrees with Python `str.encode('utf-8')` on
ASCII input, which is the only input hashed in this development. -/
def strBytes (s : String) : List Nat := s.data.map Char.toNat

end Certifi

namespace Certifi

set_option maxRecDepth 100000

/-! ## Data model (src/pipeline enums) -/

/-- Document families (src/pipeline/family_classifier.py, `DocumentFamily`). -/
inductive DocumentFamily
  | identity
  | drivingLicense
  | contract
  | certificate
  | financial
  | corporate
  | unknown
deriving DecidableEq, Repr

/-- The `.value` string of each `DocumentFamily` member. -/
def familyValue : DocumentFamily → String
  | .identity => "identity"
  | .drivingLicense => "driving_license"
  | .contract => "contract"
  | .certificate => "certificate"
  | .financial => "financial"
  | .corporate => "corporate"
  | .unknown => "unknown"

/-- Certification policies (src/pipeline/policy_resolver.py, `CertificationPolicy`). -/
inductive CertificationPolicy
  | hashOnly
  | identityMinimal
  | identityStrict
  | drivingLicenseMinimal
  | financialMinimal
  | certificateMinimal
  | corporateMinimal
  | unknown
deriving DecidableEq, Repr

/-- The `.value` string of each `CertificationPolicy` member. -/
def policyValue : CertificationPolicy → String
  | .hashOnly => "hash_only"
  | .identityMinimal => "identity_minimal"
  | .identityStrict => "identity_strict"
  | .drivingLicenseMinimal => "driving_license_minimal"
  | .financialMinimal => "financial_minimal"
  | .certificateMinimal => "certificate_minimal"
  | .corporateMinimal => "corporate_minimal"
  | .unknown => "unknown"

/-- Roles (src/pipeline/role_inference.py, `Role`). -/
inductive Role
  | contractor
  | employee
  | student
  | supplier
  | director
  | client
  | partner
  | unknown
deriving DecidableEq, Repr

/-- Risk levels (src/pipeline/decision_engine.py, `RiskLevel`). -/
inductive RiskLevel
  | low
  | medium
  | high
deriving DecidableEq, Repr

/-- The `.value` string of each `RiskLevel` member. -/
def riskValue : RiskLevel → String
  | .low => "low"
  | .medium => "medium"
  | .high => "high"

/-- Certification profiles (src/pipeline/decision_engine.py, `CertificationProfile`). -/
inductive CertificationProfile
  | identityMinimal
  | identityStrict
  | invoiceMinimal
  | invoiceStrict
  | diplomaMinimal
  | diplomaStrict
  | drivingLicenseMinimal
  | drivingLicenseStrict
deriving DecidableEq, Repr

/-- The `.value` string of each `CertificationProfile` member. -/
def profileValue : CertificationProfile → String
  | .identityMinimal => "identity_minimal"
  | .identityStrict => "identity_strict"
  | .invoiceMinimal => "invoice_minimal"
  | .invoiceStrict => "invoice_strict"
  | .diplomaMinimal => "diploma_minimal"
  | .diplomaStrict => "diploma_strict"
  | .drivingLicenseMinimal => "driving_license_minimal"
  | .drivingLicenseStrict => "driving_license_strict"

/-! ## ClaimEvaluator (src/pipeline/claim_evaluator.py)

The regex layer is abstracted as the per-signal pattern-match counts: for a
given text, each field of `ClaimSignals` is the number of patterns of the
corresponding `CLAIM_PATTERNS` entry that `re.search` finds in the text
(`claim_scores` in the source); `engagementWording` is whether the regex
`engagement\s+letter|this\s+letter\s+certifies|dear\s+[A-Z]` (used at lines
132 and 149 of the source) matches.  Everything from line 109 of the source
onwards is embedded verbatim.  For empty text the source returns the
all-false record directly; that coincides with evaluating the zero
`ClaimSignals`, so no separate branch is needed. -/

/-- Per-signal match counts of the `CLAIM_PATTERNS` table on a text. -/
structure ClaimSignals where
  hasClient : Nat
  hasContractor : Nat
  referencesMasterAgreement : Nat
  scopeOfWork : Nat
  effectiveDate : Nat
  definesServices : Nat
  engagementWording : Bool
deriving DecidableEq, Repr

/-- Output of `ClaimEvaluator.evaluate` (the fields the pipeline consumes). -/
structure ClaimEvaluation where
  isContractorRelationship : Bool
  claimsConfidence : ℚ
  certifiable : Bool
  criticalScore : Nat
  supportingScore : Nat
deriving DecidableEq, Repr

/-- `critical_score` (line 112): total has_client + has_contractor pattern
matches — a match COUNT, not a count of distinct signals. -/
def criticalScore (s : ClaimSignals) : Nat := s.hasClient + s.hasContractor

/-- `supporting_score` (line 116). -/
def supportingScore (s : ClaimSignals) : Nat :=
  s.referencesMasterAgreement + s.scopeOfWork + s.effectiveDate

/-- `claims_found['references_master_agreement']` (a pattern matched). -/
def refFound (s : ClaimSignals) : Bool := decide (0 < s.referencesMasterAgreement)

/-- The `base_confidence` assignment (lines 118-135): `none` models the
branch — critical_score 0, agreement reference found, no engagement-letter
wording — in which the source leaves `base_confidence` unassigned. -/
def baseConfidenceOpt (s : ClaimSignals) : Option ℚ :=
  if 2 ≤ criticalScore s then some 0.85
  else if criticalScore s = 1 then
    if refFound s then some 0.70 else some 0.50
  else
    if refFound s then (if s.engagementWording then some 0.65 else none)
    else some 0

/-- The supporting-claims boost (lines 137-139) followed by the agreement
reference boost (lines 152-155). -/
def boostedConfidence (s : ClaimSignals) (base0 : ℚ) : ℚ :=
  let base1 :=
    if 0 < supportingScore s then min 0.95 (base0 + (supportingScore s : ℚ) * 0.10)
    else base0
  if refFound s then min 0.95 (base1 + 0.20) else base1

/-- `is_contractor_relationship` (lines 146-154): the explicit-labels or
agreement-reference-with-wording disjunction, forced true whenever the
agreement reference fired. -/
def isContractorRel (s : ClaimSignals) : Bool :=
  refFound s ||
  ((decide (0 < s.hasClient) && decide (0 < s.hasContractor)) ||
   (refFound s && s.engagementWording))

/-- The certifiability threshold (line 159): 0.65 with an agreement
reference, else 0.70. -/
def minConfThreshold (s : ClaimSignals) : ℚ :=
  if refFound s then 0.65 else 0.70

/-- `ClaimEvaluator.evaluate` (claim_evaluator.py lines 72-170).  When
`critical_score == 0`, `references_master_agreement` matched, and the
engagement-letter wording regex does not match, the source never assigns
`base_confidence`; the first later read (the supporting-claims boost, which
always runs because the agreement reference makes `supporting_score ≥ 1`)
raises `UnboundLocalError`, modelled as `Except.error`. -/
def ClaimEvaluator.evaluate (s : ClaimSignals) : Except String ClaimEvaluation :=
  match baseConfidenceOpt s with
  | none => .error "UnboundLocalError: local variable referenced before assignment"
  | some base0 =>
    .ok ⟨isContractorRel s, boostedConfidence s base0,
         isContractorRel s && decide (minConfThreshold s ≤ boostedConfidence s base0),
         criticalScore s, supportingScore s⟩

/-! ## RoleInferenceEngine (src/pipeline/role_inference.py)

The regex layer is abstracted as the per-role counts of matched
`HARD_EVIDENCE` and `SOFT_EVIDENCE` patterns, in the iteration order of the
`HARD_EVIDENCE` dict (contractor, employee, student, supplier, director).
`max(..., key=...)` in Python keeps the first maximal element, which
`pickBestRole` reproduces. -/

/-- Match counts of one role's hard and soft evidence patterns. -/
structure RoleScore where
  role : Role
  hard : Nat
  soft : Nat
deriving DecidableEq, Repr

/-- `score = len(hard_matches) * 3 + len(soft_matches) * 1` (line 146). -/
def RoleScore.score (r : RoleScore) : Nat := 3 * r.hard + r.soft

/-- Roles with positive score, best first-maximal score wins (lines 148-165). -/
def pickBestRole (l : List RoleScore) : Option RoleScore :=
  l.foldl
    (fun acc x =>
      if 0 < x.score then
        match acc with
        | none => some x
        | some b => if b.score < x.score then some x else acc
      else acc)
    none

/-- `family_role_map` (lines 181-185). -/
def familyExpectedRole (family : String) : Option Role :=
  if family = "contract" then some .contractor
  else if family = "certificate" then some .contractor
  else if family = "financial" then some .contractor
  else none

/-- Confidence before the family boost (lines 170-178). -/
def rawRoleConfidence (hard soft : Nat) : ℚ :=
  if 0 < hard then min 0.95 (0.70 + (hard : ℚ) * 0.10)
  else if 0 < soft then min 0.75 (0.50 + (soft : ℚ) * 0.05)
  else 0

/-- Evidence type accompanying the confidence (lines 170-178). -/
def roleEvidenceType (hard soft : Nat) : String :=
  if 0 < hard then "hard" else if 0 < soft then "soft" else "none"

/-- Confidence with the +0.10 family-context boost capped at 0.98 (line 190). -/
def finalRoleConfidence (hard soft : Nat) (familyBoost : Bool) : ℚ :=
  let c := rawRoleConfidence hard soft
  if familyBoost then min 0.98 (c + 0.10) else c

/-- Output of `RoleInferenceEngine.infer` (the fields the pipeline consumes). -/
structure RoleResult where
  role : Role
  confidence : ℚ
  evidence : String
deriving DecidableEq, Repr

/-- `RoleInferenceEngine.infer` (role_inference.py lines 110-199) over the
per-role match counts. -/
def RoleInferenceEngine.infer (scores : List RoleScore) (family : String) : RoleResult :=
  match pickBestRole scores with
  | none => ⟨.unknown, 0, "none"⟩
  | some b =>
    let boost : Bool := familyExpectedRole family == some b.role
    ⟨b.role, finalRoleConfidence b.hard b.soft boost, roleEvidenceType b.hard b.soft⟩

end Certifi

namespace Certifi

/-! ## ClaimExtractor: amount disambiguation (src/pipeline/claim_extractor.py)

Each regex match that reaches lines 660-788 of the source contributes at
most one amount candidate.  The match is abstracted as the matched amount
string (commas already removed, as in the source) plus the resolved
currency and the context-keyword flags the source probes on the ±150
character window around the match.  The admission logic (lines 699-788)
and the selection logic (lines 792-899) are embedded verbatim; the
price_parser branch is absent (the library is an optional import, and when
it does fire the source crashes on the then-unbound `amount_str`, which
the bare `except` at line 789 silently swallows). -/

/-- One entry of the source's `found_amounts` list. -/
structure AmountCandidate where
  amount : ℚ
  currency : String
  priority : Nat
  isSecondary : Bool
  amountType : String
deriving DecidableEq, Repr

/-- Context-keyword flags probed around an amount match (lines 702-767). -/
structure AmountContext where
  exchangeRateKw : Bool
  rateKw : Bool
  usdKw : Bool
  aedKw : Bool
  eqSign : Bool
  annualKw : Bool
  totalKw : Bool
  compensationKw : Bool
  monthlyKw : Bool
  baseKw : Bool
  allowanceKw : Bool
deriving DecidableEq, Repr

/-- An `AmountContext` with no keyword present. -/
def noContext : AmountContext := ⟨false, false, false, false, false, false, false, false, false, false, false⟩

/-- Value of a nonempty all-digit character list. -/
def digitsVal (l : List Char) : Option Nat :=
  if l ≠ [] ∧ l.all Char.isDigit then
    some (l.foldl (fun n c => 10 * n + (c.toNat - 48)) 0)
  else none

/-- Python `str.split('.')` over the character list (structural recursion,
so that concrete runs evaluate in the kernel). -/
def splitDot : List Char → List (List Char)
  | [] => [[]]
  | c :: rest =>
    match splitDot rest with
    | [] => [[c]]
    | s :: ss => if c = '.' then [] :: s :: ss else (c :: s) :: ss

/-- Model of Python `float(amount_str)` on the strings produced by the
source's amount regexes (digits with an optional fractional part; commas
were already stripped).  Exact rational value; the magnitude comparisons
performed on it (10, 100, 1000, 10000, 20000, 50000, 100000) are
unaffected by binary-float rounding at these scales. -/
def parseAmount (s : String) : Option ℚ :=
  match splitDot s.data with
  | [w] => (digitsVal w).map (fun n => (n : ℚ))
  | [w, f] =>
    match digitsVal w, digitsVal f with
    | some wn, some fn => some ((wn : ℚ) + (fn : ℚ) / (10 : ℚ) ^ f.length)
    | _, _ => none
  | _ => none

/-- Digit count of the fractional part, Python `len(amount_str.split('.')[1])`. -/
def fracDigits (s : String) : Nat :=
  match splitDot s.data with
  | _ :: f :: _ => f.length
  | _ => 0

/-- Line 705: `amount_value < 10 and '.' in amount_str and
len(amount_str.split('.')[1]) >= 3`. -/
def isLikelyRate (value : ℚ) (s : String) : Bool :=
  decide (value < 10) && s.data.contains '.' && decide (3 ≤ fracDigits s)

/-- Lines 712-716 (`is_exchange_rate`), with Python's `and`-over-`or`
precedence. -/
def isExchangeRate (ctx : AmountContext) (value : ℚ) : Bool :=
  ctx.exchangeRateKw ||
  (ctx.rateKw && (ctx.usdKw || ctx.aedKw) && decide (value < 10)) ||
  (ctx.eqSign && decide (value < 10))

/-- Lines 720-727 (`is_allowance_or_budget`). -/
def isAllowanceOrBudget (ctx : AmountContext) (value : ℚ) : Bool :=
  decide (value < 20000) && ctx.allowanceKw

/-- Priority bucket and amount type from the context (lines 729-767). -/
def amountPriority (value : ℚ) (ctx : AmountContext) : Nat × String :=
  if ctx.annualKw then
    if ctx.totalKw || ctx.compensationKw || decide (50000 < value) then (0, "annual_total")
    else (1, "annual")
  else if ctx.monthlyKw then
    if ctx.totalKw || ctx.compensationKw then (2, "monthly_total")
    else if ctx.baseKw then (3, "base_fee")
    else (4, "monthly")
  else if isAllowanceOrBudget ctx value then (10, "allowance")
  else if decide (100000 < value) then (0, "annual_total")
  else if decide (50000 < value) then (1, "annual")
  else if decide (value < 10000) then (8, "other")
  else (5, "other")

/-- Admission of one match into `found_amounts` (lines 699-788).  `none`
models both the filters and the `except: pass` on an unparsable string. -/
def admitCandidate (amountStr : String) (currency : String) (ctx : AmountContext) : Option AmountCandidate :=
  match parseAmount amountStr with
  | none => none
  | some value =>
    let pr := amountPriority value ctx
    if !isLikelyRate value amountStr && !isExchangeRate ctx value then
      if decide (1000 ≤ value) || (decide (100 ≤ value) && decide (currency = "AED")) then
        some ⟨value, currency, pr.1, false, pr.2⟩
      else if decide (10 ≤ value) && decide (currency = "AED") && decide (value < 1000) &&
              !isAllowanceOrBudget ctx value then
        some ⟨value, currency, pr.1, true, pr.2⟩
      else none
    else none

/-- Stable insertion into a sorted list: the new element goes before the
first element it compares less-or-equal to, hence before later-inserted
equals — the stability discipline of Python `list.sort`. -/
def insortStable (le : AmountCandidate → AmountCandidate → Bool)
    (x : AmountCandidate) : List AmountCandidate → List AmountCandidate
  | [] => [x]
  | y :: ys => if le x y then x :: y :: ys else y :: insortStable le x ys

/-- Stable sort by a total boolean preorder (insertion sort, structural so
that concrete runs evaluate; agrees with Python's stable sort). -/
def pySort (le : AmountCandidate → AmountCandidate → Bool) :
    List AmountCandidate → List AmountCandidate
  | [] => []
  | x :: xs => insortStable le x (pySort le xs)

/-- The stable sort key of line 800: priority ascending, amount descending. -/
def candLE (a b : AmountCandidate) : Bool :=
  decide (a.priority < b.priority) ||
  (decide (a.priority = b.priority) && decide (b.amount ≤ a.amount))

/-- Python `list.sort(key=lambda x: (x.priority, -x.amount))` (stable). -/
def sortCands (l : List AmountCandidate) : List AmountCandidate :=
  pySort candLE l

/-- Python `sorted(l, key=lambda x: x.amount, reverse=True)` (stable). -/
def sortByAmountDesc (l : List AmountCandidate) : List AmountCandidate :=
  pySort (fun a b => decide (b.amount ≤ a.amount)) l

/-- Python `max(l, key=lambda x: x.amount)`: the first maximal element. -/
def maxByAmount (l : List AmountCandidate) : Option AmountCandidate :=
  l.foldl
    (fun acc x =>
      match acc with
      | none => some x
      | some m => if m.amount < x.amount then some x else acc)
    none

/-- Python `sorted(l, key=amount, reverse=True)[1] if len(l) > 1 else None`. -/
def secondByAmount (l : List AmountCandidate) : Option AmountCandidate :=
  (sortByAmountDesc l)[1]?

/-- The pool the source actually compares for the 10x/5x dominance rules:
the AED candidates of the sorted significant list when any exist
(lines 806-822), otherwise the whole sorted significant list
(lines 823-835). -/
def comparePool (found : List AmountCandidate) : List AmountCandidate :=
  let sorted := sortCands (found.filter (fun a => decide (1000 ≤ a.amount) && !a.isSecondary))
  let aed := sorted.filter (fun a => a.currency == "AED")
  if aed.isEmpty then sorted else aed

/-- Selection among the significant (≥1000, non-secondary) candidates,
lines 797-835.  The two source branches (AED pool / whole pool) perform
the same computation on their respective pools, which `comparePool`
supplies; in the singleton-AED case the source's extra 5x check compares
the element against itself and never fires, so returning the head is
extensionally identical. -/
def selectFromSignificant (found : List AmountCandidate) : Option AmountCandidate :=
  match comparePool found with
  | [] => none
  | p0 :: prest =>
    if prest.isEmpty then some p0
    else
      match maxByAmount (p0 :: prest), secondByAmount (p0 :: prest) with
      | some largest, some second =>
        if second.amount * 10 < largest.amount then some largest
        else if p0.amount * 5 < largest.amount && decide (largest.priority ≤ 3) then some largest
        else some p0
      | _, _ => some p0

/-- Amount selection over the full `found_amounts` list (lines 792-899):
the significant branch, the ≥100 fallback, and the AED last resort.
Returns the candidate whose amount/currency are written into the claim,
or `none` when the claim's amount is left unset. -/
def selectBestAmount (found : List AmountCandidate) : Option AmountCandidate :=
  if found.isEmpty then none
  else
    let significant := found.filter (fun a => decide (1000 ≤ a.amount) && !a.isSecondary)
    if significant.isEmpty then
      let fallback := found.filter (fun a => decide (100 ≤ a.amount) && !a.isSecondary)
      if fallback.isEmpty then
        let aedLast := found.filter
          (fun a => a.currency == "AED" && !a.isSecondary && a.amountType != "allowance")
        if aedLast.isEmpty then none else (sortCands aedLast).head?
      else
        let sorted := sortCands fallback
        let aedF := sorted.filter (fun a => a.currency == "AED")
        if aedF.isEmpty then sorted.head? else aedF.head?
    else selectFromSignificant found

/-- Claim confidence from the extracted components (lines 917-933): the
amount counts for half a component, and only the exact totals 1, 2 and
the threshold 3 are recognised. -/
def claimConfidence (subject entity startDate amount : Bool) : ℚ :=
  let c : ℚ := (if subject then 1 else 0) + (if entity then 1 else 0) +
               (if startDate then 1 else 0) + (if amount then 1/2 else 0)
  if 3 ≤ c then 0.85 else if c = 2 then 0.70 else if c = 1 then 0.50 else 0.30

/-- Claim evidence type (lines 935-941). -/
def claimEvidenceType (subject entity startDate : Bool) : String :=
  if subject && entity && startDate then "hard"
  else if subject || entity then "soft"
  else "none"

/-! ## FamilyClassifier: confidence computation (src/pipeline/family_classifier.py)

The per-family score stored in `scores` for a qualifying family
(lines 283-344), abstracted over the keyword/structural match counts and
the accumulated co-occurrence boost. -/

/-- The confidence stored for a family that qualifies (`min_matches` met):
`min(score/total, 0.98)`, plus the co-occurrence boost capped at 0.98,
with the 0.6 floor for CONTRACT. -/
def familyScoreConfidence (keywordMatches structuralMatches : Nat)
    (isDrivingLicense : Bool) (numKeywords numStructural : Nat)
    (coBoost : ℚ) (isContract : Bool) : ℚ :=
  let structuralWeight : Nat := if isDrivingLicense then 2 else 3
  let score : Nat := keywordMatches * 3 + structuralMatches * structuralWeight
  let totalPossible : Nat := numKeywords * 3 + numStructural * 3
  let normalized : ℚ :=
    if 0 < totalPossible then min ((score : ℚ) / (totalPossible : ℚ)) 0.98 else 0
  let boosted := min 0.98 (normalized + coBoost)
  if isContract then max boosted 0.6 else boosted

end Certifi

namespace Certifi

/-! ## DecisionEngine (src/pipeline/decision_engine.py) -/

/-- One profile's requirements (`_define_profiles`). -/
structure ProfileConfig where
  requiredFields : List String
  optionalFields : List String
  minConfidence : ℚ
  preferredSource : String
deriving DecidableEq, Repr

/-- The profile table of `_define_profiles` (lines 56-107). -/
def profileConfig : CertificationProfile → ProfileConfig
  | .identityMinimal =>
    ⟨["first_name", "last_name", "date_of_birth"],
     ["place_of_birth", "tax_code", "address"], 0.85, "mrz"⟩
  | .identityStrict =>
    ⟨["first_name", "last_name", "date_of_birth", "place_of_birth", "tax_code"],
     ["address", "city", "postal_code"], 0.90, "mrz"⟩
  | .invoiceMinimal =>
    ⟨["invoice_number", "total_amount", "invoice_date"],
     ["vat_amount", "seller_name", "buyer_name"], 0.80, "ocr"⟩
  | .invoiceStrict =>
    ⟨["invoice_number", "total_amount", "invoice_date", "vat_amount", "seller_name"],
     ["buyer_name", "seller_vat", "buyer_vat"], 0.85, "ocr"⟩
  | .diplomaMinimal =>
    ⟨["student_name", "university_name", "degree_type"],
     ["graduation_date", "final_grade", "cfu_total"], 0.80, "ocr"⟩
  | .diplomaStrict =>
    ⟨["student_name", "university_name", "degree_type", "graduation_date", "final_grade"],
     ["cfu_total", "thesis_title"], 0.85, "ocr"⟩
  | .drivingLicenseMinimal =>
    ⟨["first_name", "last_name", "license_number", "expiry_date"],
     ["date_of_birth", "place_of_birth", "issue_date", "categories"], 0.85, "layout_rules"⟩
  | .drivingLicenseStrict =>
    ⟨["first_name", "last_name", "license_number", "expiry_date", "date_of_birth", "issue_date"],
     ["place_of_birth", "categories", "address"], 0.90, "layout_rules"⟩

/-- `_infer_profile` (lines 256-267): everything outside the four mapped
document types falls through to IDENTITY_MINIMAL. -/
def DecisionEngine.inferProfile (documentType : String) : CertificationProfile :=
  if documentType = "id" then .identityMinimal
  else if documentType = "invoice" then .invoiceMinimal
  else if documentType = "diploma" then .diplomaMinimal
  else if documentType = "driving_license" then .drivingLicenseMinimal
  else .identityMinimal

/-- `RISK_FACTORS.get(trusted_source, 0.75)` (lines 46-51, 166). -/
def riskFactor : Option String → ℚ
  | some "mrz" => 0.95
  | some "layout_rules" => 0.90
  | some "ocr" => 0.75
  | some "llm" => 0.80
  | _ => 0.75

/-- `_calculate_risk_level` (lines 269-300). -/
def calculateRiskLevel (confidence : ℚ) (trustedSource : Option String)
    (missingFields : List String) (cfg : ProfileConfig) : RiskLevel :=
  if confidence < 0.85 then .high
  else if trustedSource ≠ some cfg.preferredSource then .medium
  else if 2 < missingFields.length then .medium
  else if 0.90 ≤ confidence ∧ trustedSource = some cfg.preferredSource then .low
  else .medium

/-- The branch-specific payload of the `details` entry of each returned
decision dictionary. -/
inductive DecisionDetails
  | lowClassification (classificationConfidence threshold : ℚ)
  | missingRequired (missing : List String) (profile : String)
  | belowThreshold (current required : ℚ) (profile : String)
  | lowFieldConfidence (fields : List String) (confs : List (String × ℚ))
  | accepted (classificationConfidence extractionConfidence adjustedConfidence : ℚ)
      (trustedSource : Option String) (missingOptional : List String)
deriving DecidableEq, Repr

/-- The decision dictionary returned by `DecisionEngine.decide`.  The
`profile` key is present only in the success dictionary (line 243),
hence `Option`. -/
structure Decision where
  certificationReady : Bool
  humanReviewRequired : Bool
  reason : String
  riskLevel : RiskLevel
  confidence : ℚ
  profile : Option String
  details : DecisionDetails
deriving DecidableEq, Repr

/-- Python `field_confidence[f]` guarded by `f in field_confidence`. -/
def lookupConf (fc : List (String × ℚ)) (f : String) : Option ℚ :=
  (fc.find? (fun p => p.1 == f)).map (fun p => p.2)

/-- `DecisionEngine.decide` (lines 109-254), embedded branch by branch in
source order: profile resolution, the classification gate, the MRZ boost,
the adjusted confidence, the required-fields gate, the profile threshold,
the critical-field confidences, and the risk level. -/
def DecisionEngine.decide (documentType : String)
    (classificationConfidence extractionConfidence : ℚ)
    (trustedSource : Option String) (fieldConfidence : List (String × ℚ))
    (missingFields : List String) (profileOpt : Option CertificationProfile) : Decision :=
  let profile :=
    match profileOpt with
    | some p => p
    | none => DecisionEngine.inferProfile documentType
  let cfg := profileConfig profile
  if classificationConfidence < 0.70 then
    ⟨false, true, "low_classification_confidence", .high, classificationConfidence, none,
     .lowClassification classificationConfidence 0.70⟩
  else
    let cc :=
      if trustedSource = some "mrz" ∧ classificationConfidence < 0.8 then 0.90
      else classificationConfidence
    let baseConfidence := min extractionConfidence cc
    let adjusted := min (baseConfidence * riskFactor trustedSource) 0.98
    let missingRequired := cfg.requiredFields.filter (fun f => missingFields.contains f)
    if missingRequired ≠ [] then
      ⟨false, true, "missing_required_fields", .medium, adjusted, none,
       .missingRequired missingRequired (profileValue profile)⟩
    else if adjusted < cfg.minConfidence then
      ⟨false, true, "below_profile_threshold", .medium, adjusted, none,
       .belowThreshold adjusted cfg.minConfidence (profileValue profile)⟩
    else
      let criticalFields := cfg.requiredFields.take 3
      let lowConfFields := criticalFields.filter
        (fun f => match lookupConf fieldConfidence f with
                  | some v => Decidable.decide (v < 0.7)
                  | none => false)
      if lowConfFields ≠ [] then
        ⟨false, true, "low_field_confidence", .medium, adjusted, none,
         .lowFieldConfidence lowConfFields
           (lowConfFields.map (fun f => (f, (lookupConf fieldConfidence f).getD 0)))⟩
      else
        let risk := calculateRiskLevel adjusted trustedSource missingFields cfg
        ⟨true, Decidable.decide (risk = RiskLevel.high), profileValue profile ++ "_valid", risk, adjusted,
         some (profileValue profile),
         .accepted classificationConfidence extractionConfidence adjusted trustedSource
           (cfg.optionalFields.filter (fun f => missingFields.contains f))⟩

/-! ## PolicyResolver (src/pipeline/policy_resolver.py) -/

/-- One family's policy configuration (`FAMILY_POLICIES`, lines 32-82). -/
structure FamilyPolicyConfig where
  defaultPolicy : CertificationPolicy
  certifiable : Bool
  requiresExtraction : Bool
  trustedSources : List String
  minConfidence : ℚ
deriving DecidableEq, Repr

/-- The `FAMILY_POLICIES` table. -/
def familyPolicyConfig : DocumentFamily → FamilyPolicyConfig
  | .identity => ⟨.identityMinimal, true, true, ["mrz", "layout_rules"], 0.50⟩
  | .drivingLicense => ⟨.drivingLicenseMinimal, true, true, ["layout_rules"], 0.50⟩
  | .contract => ⟨.hashOnly, true, false, ["file_integrity"], 0.60⟩
  | .certificate => ⟨.certificateMinimal, true, true, ["ocr", "layout_rules"], 0.50⟩
  | .financial => ⟨.financialMinimal, true, true, ["ocr"], 0.50⟩
  | .corporate => ⟨.corporateMinimal, true, true, ["ocr"], 0.50⟩
  | .unknown => ⟨.unknown, false, false, [], 0⟩

/-- The policy decision dictionary (the fields the pipeline consumes). -/
structure PolicyDecision where
  certifiable : Bool
  policy : CertificationPolicy
  requiresExtraction : Bool
  humanReviewRequired : Bool
  reason : String
deriving DecidableEq, Repr

/-- Whether a family is in the source's `semantic_families` list. -/
def isSemanticFamily (f : DocumentFamily) : Bool :=
  f == .contract || f == .certificate || f == .financial || f == .corporate

/-- `PolicyResolver.resolve` (lines 84-177).  The `trusted_source`
parameter is omitted: it only contributes a warning string inside the
`details` sub-dictionary, which no caller reads. -/
def PolicyResolver.resolve (family : DocumentFamily) (familyConfidence : ℚ)
    (useClaimBased : Bool) : PolicyDecision :=
  let cfg := familyPolicyConfig family
  let isStructured : Bool := family == .identity || family == .drivingLicense
  if isStructured && decide (familyConfidence < cfg.minConfidence) then
    ⟨false, .unknown, false, true, "low_family_confidence"⟩
  else if isSemanticFamily family || useClaimBased then
    ⟨true, cfg.defaultPolicy, cfg.requiresExtraction, false,
     familyValue family ++ "_claim_based"⟩
  else
    ⟨cfg.certifiable, cfg.defaultPolicy, cfg.requiresExtraction,
     decide (familyConfidence < 0.85), familyValue family ++ "_policy"⟩

end Certifi

namespace Certifi

/-! ## Orchestrator (src/pipeline/orchestrator.py, `DocumentPipeline.process`)

The external collaborators (text extraction, the regex classifiers, NER,
structured extraction, validation, the file read) are supplied as
`Except`-valued stage results: an `Except.error` models the stage raising
an exception.  The control flow of `process` (lines 77-371) — the early
returns, the claim-based family override, the policy gates, the decision
step and the hash generation — is embedded verbatim; the single
`try/except` of the source becomes the `match` in `DocumentPipeline.process`
at the very end, which appends `"Pipeline error: ..."` to `errors` and
sets `success := False`.  Result fields that no claim mentions
(`text_preview`, the metadata echoes of intermediate dictionaries) are
not modelled. -/

/-- Output of `FamilyClassifier.classify` (the fields the pipeline consumes). -/
structure FamilyRes where
  family : DocumentFamily
  confidence : ℚ
  source : String
deriving DecidableEq, Repr

/-- Output of `InformationExtractor.extract` (a Pydantic schema object; in
Python always truthy).  `canonicalJson` stands for the canonical JSON that
`_generate_canonical_hash` serialises from the schema. -/
structure SchemaRes where
  confidence : ℚ
  fieldConfidence : List (String × ℚ)
  missingFields : List String
  trustedSource : Option String
  rawText : String
  canonicalJson : String
deriving DecidableEq, Repr

/-- Output of `ClaimExtractor.extract`: the claim dictionary always has its
14 keys, hence is always truthy at line 333 of the source; `json` stands
for `json.dumps(claim, default=str, sort_keys=True)`. -/
structure ClaimRes where
  json : String
deriving DecidableEq, Repr

/-- The pipeline stages as the orchestrator sees them; `Except.error e`
models the stage raising an exception with message `e`. -/
structure PipelineStages where
  extractText : Except String String
  classifyFamily : String → Except String FamilyRes
  evaluateClaims : String → Except String ClaimEvaluation
  inferRole : String → String → Except String RoleResult
  extractClaim : String → Except String ClaimRes
  extractStructured : String → String → Except String SchemaRes
  validate : SchemaRes → Except String (List String)
  readFile : Except String (List Nat)

/-- The result record assembled by `process` (the keys the claims mention). -/
structure ProcessResult where
  success : Bool
  documentFamily : Option String
  certificationReady : Bool
  humanReviewRequired : Bool
  certificationPolicy : Option String
  riskLevel : Option String
  certificationProfile : Option String
  certificationMethod : Option String
  fileHash : Option String
  claimHash : Option String
  canonicalHash : Option String
  errors : List String
deriving DecidableEq, Repr

/-- The result dictionary as initialised at lines 77-86. -/
def initResult : ProcessResult :=
  ⟨false, none, false, true, none, none, none, none, none, none, none, []⟩

/-- Python `str.strip()` (structural, so concrete runs evaluate). -/
def pyStrip (s : String) : String :=
  String.mk (((s.data.dropWhile Char.isWhitespace).reverse.dropWhile
    Char.isWhitespace).reverse)

/-- `family_to_type` (lines 215-224), with the `.get(..., 'unknown')` default. -/
def familyToType : DocumentFamily → String
  | .identity => "id"
  | .drivingLicense => "driving_license"
  | .certificate => "diploma"
  | .financial => "invoice"
  | .contract => "contract"
  | .corporate => "corporate"
  | .unknown => "unknown"

/-- STEP 8 and the success flag (lines 302-352): hash generation for a
certification-ready result — the whole-file hash for hash_only/claim_based,
the canonical-JSON hash for extraction-based policies, the text hash as
fallback — followed by the unconditional claim-hash combination (the claim
dictionary is always truthy), or a null hash when not ready. -/
def finalizeHash (st : PipelineStages) (pd : PolicyDecision) (claim : ClaimRes)
    (schemaOpt : Option SchemaRes) (text : String)
    (validationErrors : Option (List String)) (r : ProcessResult) : ProcessResult :=
  let r :=
    if r.certificationReady then
      let r1 :=
        if pd.policy = CertificationPolicy.hashOnly ∨ r.certificationMethod = some "claim_based" then
          match st.readFile with
          | .error e =>
            { r with errors := r.errors ++ ["Failed to generate file hash: " ++ e],
                     canonicalHash := none }
          | .ok bytes =>
            let fh := sha256hex bytes
            { r with fileHash := some fh, canonicalHash := some fh }
        else
          match schemaOpt with
          | some schema =>
            if schema.rawText ≠ "" then
              { r with canonicalHash := some (sha256hex (strBytes schema.canonicalJson)) }
            else { r with canonicalHash := some (sha256hex (strBytes text)) }
          | none => { r with canonicalHash := some (sha256hex (strBytes text)) }
      let ch := sha256hex (strBytes claim.json)
      let r2 := { r1 with claimHash := some ch }
      match r2.canonicalHash with
      | some canon => { r2 with canonicalHash := some (sha256hex (strBytes (canon ++ ch))) }
      | none => r2
    else { r with canonicalHash := none }
  let success :=
    match schemaOpt, validationErrors with
    | some _, some ve => ve.isEmpty
    | some _, none => true
    | none, _ => r.errors.isEmpty
  { r with success := success }

/-- STEPs 4-7 (lines 196-300): role inference, claim extraction, optional
structured extraction, and the final decision (the DecisionEngine for
extraction-based documents, the synthesised claim-based decision for
semantic ones, the rejecting fallback otherwise), then `finalizeHash`. -/
def afterGate (st : PipelineStages) (certProfile : Option CertificationProfile)
    (text : String) (family : DocumentFamily) (famConf : ℚ) (ev : ClaimEvaluation)
    (pd : PolicyDecision) (r : ProcessResult) :
    Except (ProcessResult × String) ProcessResult :=
  match st.inferRole text (familyValue family) with
  | .error e => .error (r, e)
  | .ok _roleRes =>
  match st.extractClaim text with
  | .error e => .error (r, e)
  | .ok claim =>
  let extractionStep : Except (ProcessResult × String) (Option SchemaRes × Option String) :=
    if pd.requiresExtraction then
      if familyToType family ≠ "unknown" then
        match st.extractStructured text (familyToType family) with
        | .error e => .error (r, e)
        | .ok schema => .ok (some schema, schema.trustedSource)
      else .ok (none, none)
    else .ok (none, some "file_integrity")
  match extractionStep with
  | .error p => .error p
  | .ok (schemaOpt, trustedSource) =>
  match schemaOpt with
  | some schema =>
    let decision := DecisionEngine.decide (familyValue family) famConf schema.confidence
      trustedSource schema.fieldConfidence schema.missingFields certProfile
    match st.validate schema with
    | .error e => .error (r, e)
    | .ok validationErrors =>
      let r := { r with
        certificationReady := decision.certificationReady,
        humanReviewRequired := decision.humanReviewRequired,
        riskLevel := some (riskValue decision.riskLevel),
        certificationProfile := some (decision.profile.getD "auto") }
      .ok (finalizeHash st pd claim schemaOpt text (some validationErrors) r)
  | none =>
    if isSemanticFamily family && ev.certifiable then
      let r := { r with
        certificationReady := true,
        humanReviewRequired := Decidable.decide (ev.claimsConfidence < 0.85),
        riskLevel := some (riskValue (if 0.90 ≤ ev.claimsConfidence then .low else .medium)),
        certificationProfile := some (policyValue pd.policy) }
      .ok (finalizeHash st pd claim schemaOpt text none r)
    else
      let r := { r with
        certificationReady := false,
        humanReviewRequired := true,
        riskLevel := some "high",
        certificationProfile := some (policyValue pd.policy) }
      .ok (finalizeHash st pd claim schemaOpt text none r)

/-- The body of `process` inside the `try` (lines 88-365): text extraction
and the length gate, family classification and the unknown gate, claim
evaluation, the adaptive confidence boost and the claim-based family
override, policy resolution, and the three-way certification gate with its
early returns.  An `Except.error` carries the partially built result
record together with the in-flight exception message. -/
def runPipeline (st : PipelineStages) (certProfile : Option CertificationProfile) :
    Except (ProcessResult × String) ProcessResult :=
  let r := initResult
  match st.extractText with
  | .error e => .error (r, e)
  | .ok text =>
  if (pyStrip text).length < 10 then
    .ok { r with errors := r.errors ++ ["Failed to extract text or text too short"] }
  else
  match st.classifyFamily text with
  | .error e => .error (r, e)
  | .ok famRes =>
  let r := { r with documentFamily := some (familyValue famRes.family) }
  if famRes.family = DocumentFamily.unknown then
    .ok { r with
          errors := r.errors ++ ["Could not classify document family"],
          certificationReady := false, humanReviewRequired := true }
  else
  match st.evaluateClaims text with
  | .error e => .error (r, e)
  | .ok ev =>
  let famConf1 :=
    if 0.70 ≤ ev.claimsConfidence then
      min 0.98 (famRes.confidence + min 0.15 ((ev.claimsConfidence - 0.70) * 0.3))
    else famRes.confidence
  let strongClaims : Bool :=
    ev.isContractorRelationship && Decidable.decide (0.70 ≤ ev.claimsConfidence)
  let family := if strongClaims then DocumentFamily.contract else famRes.family
  let famConf := if strongClaims then max famConf1 0.70 else famConf1
  let r := { r with documentFamily := some (familyValue family) }
  let policyDecision := PolicyResolver.resolve family famConf
    (isSemanticFamily family && ev.isContractorRelationship)
  let r := { r with certificationPolicy := some (policyValue policyDecision.policy) }
  if isSemanticFamily family then
    if ev.certifiable then
      let r := { r with
        certificationReady := true,
        humanReviewRequired := Decidable.decide (ev.claimsConfidence < 0.85),
        certificationMethod := some "claim_based" }
      afterGate st certProfile text family famConf ev policyDecision r
    else
      .ok { r with
        certificationReady := false,
        humanReviewRequired := true,
        errors := r.errors ++
          ["Claims evaluation failed: insufficient evidence of contractor relationship"] }
  else if !policyDecision.certifiable then
    if ev.isContractorRelationship && Decidable.decide (0.70 ≤ ev.claimsConfidence) then
      let pd := { policyDecision with policy := CertificationPolicy.hashOnly }
      let r := { r with
        certificationReady := true,
        humanReviewRequired := Decidable.decide (ev.claimsConfidence < 0.85),
        certificationMethod := some "claim_based_override",
        certificationPolicy := some (policyValue CertificationPolicy.hashOnly) }
      afterGate st certProfile text family famConf ev pd r
    else
      .ok { r with
        certificationReady := false,
        humanReviewRequired := true,
        errors := r.errors ++
          ["Document family " ++ familyValue family ++ " not certifiable: " ++
           policyDecision.reason] }
  else
    afterGate st certProfile text family famConf ev policyDecision r

/-- `DocumentPipeline.process`: the single exception boundary (lines
367-371).  A stage exception is appended to `errors` as
`"Pipeline error: ..."` and `success` is set to `False`; the function
itself is total — it never raises. -/
def DocumentPipeline.process (st : PipelineStages)
    (certProfile : Option CertificationProfile) : ProcessResult :=
  match runPipeline st certProfile with
  | .ok r => r
  | .error (r, e) => { r with errors := r.errors ++ ["Pipeline error: " ++ e],
                              success := false }

end Certifi

namespace Certifi

/-! ## Auxiliary definitions for the concrete runs used in the theorems -/

/-- The `document_type` strings the orchestrator can hand to
`DecisionEngine.decide`: the engine is invoked only when structured
extraction ran (orchestrator line 249), which requires the resolved
policy's `requires_extraction` (taken from `FAMILY_POLICIES` in every
certifiable branch of the resolver) and a `family_to_type` mapping; the
string passed is `document_family.value` (line 252). -/
def orchestratorDecideTypes : List String :=
  (([DocumentFamily.identity, .drivingLicense, .contract, .certificate,
     .financial, .corporate, .unknown] : List DocumentFamily).filter
    (fun f => (familyPolicyConfig f).requiresExtraction && familyToType f != "unknown")).map
    familyValue

/-- Stage outputs for a single-document run in which the text fired the
given claim-signal counts; the claim evaluator stage is the embedded
`ClaimEvaluator.evaluate` on those counts. -/
def stagesOf (text : String) (famRes : FamilyRes) (sig : ClaimSignals)
    (roleRes : RoleResult) (claim : ClaimRes)
    (schemaFn : String → String → Except String SchemaRes)
    (valFn : SchemaRes → Except String (List String)) (fileBytes : List Nat) :
    PipelineStages :=
  ⟨.ok text, fun _ => .ok famRes, fun _ => ClaimEvaluator.evaluate sig,
   fun _ _ => .ok roleRes, fun _ => .ok claim, schemaFn, valFn, .ok fileBytes⟩

/-- A contractor engagement text containing the "Client:" and "Contractor:"
labels, the phrase "independent contractor" and a valid date. -/
def exText : String :=
  "Client: Franco\nContractor: Bob\nBob is engaged as an independent contractor.\nEffective date: 2024-03-12"

/-- The raw bytes of the file holding `exText` (ASCII). -/
def exFileBytes : List Nat := strBytes exText

/-- The `CLAIM_PATTERNS` match counts on `exText`: one has_client pattern
(client: followed by a capitalised name); four has_contractor patterns
(the contractor: label, "engaged as an independent contractor",
"is engaged as an independent contractor", and the two-word-name
"... is engaged" pattern matching across the newline); one
has_effective_date pattern ("effective date"); no agreement-reference,
scope-of-work or services pattern matches, and the engagement-letter
wording regex finds no match. -/
def exSignals : ClaimSignals := ⟨1, 4, 0, 0, 1, 0, false⟩

/-- `FamilyClassifier.classify exText`: CONTRACT qualifies (min_matches 1)
with 4 keyword hits ("contract" inside "contractor:", "client:",
"contractor:", "independent contractor") and 4 structural hits, normalized
24/174, plus the 0.20 independent-contractor co-occurrence boost, floored
to the CONTRACT minimum 0.60; the only other qualifying family
(driving_license, via the single-letter keyword substrings) scores lower. -/
def exFamilyRes : FamilyRes := ⟨.contract, 0.6, "layout"⟩

/-- `RoleInferenceEngine.infer` on `exText`: contractor hard evidence. -/
def exRoleRes : RoleResult := ⟨.contractor, 0.98, "hard"⟩

/-- A serialization of the claim dictionary produced for `exText`,
standing for `json.dumps(claim, default=str, sort_keys=True)`.  The claim
dictionary always exists (14 fixed keys), so some such string is always
hashed; the counterexample below does not depend on its exact value. -/
def exClaimJson : String := "\x7b\"role\": \"contractor\", \"subject\": null\x7d"

/-- The structured-extraction stage of the concrete run (never invoked:
the hash_only policy does not require extraction). -/
def exSchemaFn : String → String → Except String SchemaRes := fun _ _ => .error "not reached"

/-- The validation stage of the concrete run (never invoked). -/
def exValidateFn : SchemaRes → Except String (List String) := fun _ => .ok []

/-- The full stage outputs of the concrete contractor-engagement run. -/
def exStages : PipelineStages :=
  stagesOf exText exFamilyRes exSignals exRoleRes ⟨exClaimJson⟩ exSchemaFn exValidateFn exFileBytes

/-- Stage outputs in which family classification raises. -/
def failStages : PipelineStages :=
  ⟨.ok "0123456789abcdef", fun _ => .error "boom", fun _ => .error "boom",
   fun _ _ => .error "boom", fun _ => .error "boom", fun _ _ => .error "boom",
   fun _ => .error "boom", .error "boom"⟩

/-! ## Validation of the SHA-256 embedding against the FIPS 180-4 test vectors -/

/-- SHA-256 of the empty message matches the standard test vector. -/
theorem sha256hex_empty_vector :
    sha256hex [] = "e3b0c44298fc1c149afbf4c8996fb92427ae41e4649b934ca495991b7852b855" := by
  decide

/-- SHA-256 of "abc" matches the standard test vector. -/
theorem sha256hex_abc_vector :
    sha256hex (strBytes "abc") =
      "ba7816bf8f01cfea414140de5dae2223b00361a396177a9cb410ff61f20015ad" := by
  decide

/-! ## Shared helper lemmas -/

/-- A capped nonnegative quantity stays in the band `[0, cap]`. -/
theorem min_cap_bounds {cap x : ℚ} (hcap : 0 ≤ cap) (hx : 0 ≤ x) :
    0 ≤ min cap x ∧ min cap x ≤ cap :=
  ⟨le_min hcap hx, min_le_left _ _⟩

/-- The raw role confidence never decreases when hard evidence grows. -/
theorem rawRoleConfidence_mono (h h' s : Nat) (hh : h ≤ h') :
    rawRoleConfidence h s ≤ rawRoleConfidence h' s := by
  unfold rawRoleConfidence
  rcases Nat.eq_zero_or_pos h with h0 | hpos
  · subst h0
    rcases Nat.eq_zero_or_pos h' with h0' | hpos'
    · subst h0'; exact le_rfl
    · rw [if_neg (by omega), if_pos hpos']
      have hc : (1 : ℚ) ≤ (h' : ℚ) := by exact_mod_cast hpos'
      have hrhs : (0.8 : ℚ) ≤ min 0.95 (0.70 + (h' : ℚ) * 0.10) := by
        refine le_min (by norm_num) ?_
        nlinarith
      split
      · exact le_trans (min_le_left _ _) (by linarith)
      · linarith
  · rw [if_pos hpos, if_pos (lt_of_lt_of_le hpos hh)]
    refine min_le_min le_rfl ?_
    have hc : (h : ℚ) ≤ (h' : ℚ) := by exact_mod_cast hh
    nlinarith

/-- The boosted role confidence never decreases when hard evidence grows. -/
theorem finalRoleConfidence_mono (h h' s : Nat) (fb : Bool) (hh : h ≤ h') :
    finalRoleConfidence h s fb ≤ finalRoleConfidence h' s fb := by
  unfold finalRoleConfidence
  have hraw := rawRoleConfidence_mono h h' s hh
  cases fb
  · simpa using hraw
  · simp only [Bool.true_eq]
    exact min_le_min le_rfl (by linarith)

/-- The raw role confidence lies in `[0, 0.95]`. -/
theorem rawRoleConfidence_bounds (h s : Nat) :
    0 ≤ rawRoleConfidence h s ∧ rawRoleConfidence h s ≤ 0.95 := by
  unfold rawRoleConfidence
  split_ifs with h1 h2
  · have : (0 : ℚ) ≤ (h : ℚ) := by positivity
    exact ⟨le_min (by norm_num) (by nlinarith), min_le_left _ _⟩
  · have : (0 : ℚ) ≤ (s : ℚ) := by positivity
    exact ⟨le_min (by norm_num) (by nlinarith), le_trans (min_le_left _ _) (by norm_num)⟩
  · norm_num

/-- The boosted role confidence lies in `[0, 0.98]`. -/
theorem finalRoleConfidence_bounds (h s : Nat) (fb : Bool) :
    0 ≤ finalRoleConfidence h s fb ∧ finalRoleConfidence h s fb ≤ 0.98 := by
  unfold finalRoleConfidence
  obtain ⟨hl, hu⟩ := rawRoleConfidence_bounds h s
  cases fb
  · exact ⟨hl, le_trans hu (by norm_num)⟩
  · simp only [Bool.true_eq]
    exact ⟨le_min (by norm_num) (by linarith), min_le_left _ _⟩

end Certifi

namespace Certifi

/-! ## Claim theorems -/

/-- C3: for every call to DecisionEngine.decide with
classification_confidence < 0.70, the returned decision has
certification_ready = false, reason = low_classification_confidence and
risk_level = high, with the confidence echoing the input; the result is a
fixed record independent of the extraction confidence, the trusted source,
the field confidences, the missing fields and the profile, so neither the
MRZ boost nor the field checks nor the profile threshold can influence it. -/
theorem c3_low_classification_gate (documentType : String) (cc ec : ℚ)
    (ts : Option String) (fc : List (String × ℚ)) (mf : List String)
    (p : Option CertificationProfile) (h : cc < 0.70) :
    DecisionEngine.decide documentType cc ec ts fc mf p =
      ⟨false, true, "low_classification_confidence", RiskLevel.high, cc, none,
       DecisionDetails.lowClassification cc 0.70⟩ := by
  unfold DecisionEngine.decide
  rw [if_pos h]

/-- C3 witness: the particular instance document_type = identity with
classification_confidence = 0.60, arbitrary later-step inputs. -/
theorem c3_low_classification_gate_witness :
    (0.60 : ℚ) < 0.70 ∧
    DecisionEngine.decide "identity" 0.60 0.95 (some "mrz") [("first_name", 0.2)]
        ["first_name"] none =
      ⟨false, true, "low_classification_confidence", RiskLevel.high, 0.60, none,
       DecisionDetails.lowClassification 0.60 0.70⟩ :=
  ⟨by norm_num,
   c3_low_classification_gate "identity" 0.60 0.95 (some "mrz") [("first_name", 0.2)]
     ["first_name"] none (by norm_num)⟩

/-- C4: the claim says ClaimEvaluator.evaluate always returns, with base
confidence 0.0 whenever neither client/contractor case applies.  The code
disagrees twice.  First conjunct: on a text whose only signal is an
agreement reference without engagement-letter wording (for example the
text "master agreement", which matches exactly one
references_master_agreement pattern and nothing else), the evaluator
raises UnboundLocalError instead of returning 0.0.  Second conjunct: the
code compares the pattern-match COUNT against 2, not the number of
distinct signals found, so two has_client matches with no contractor
signal (for example "Client: Franco. The client is Bob.") yield base
confidence 0.85 where the claim mandates 0.50. -/
theorem c4_evaluator_raises_unbound :
    ClaimEvaluator.evaluate ⟨0, 0, 1, 0, 0, 0, false⟩ =
      Except.error "UnboundLocalError: local variable referenced before assignment" ∧
    ClaimEvaluator.evaluate ⟨2, 0, 0, 0, 0, 0, false⟩ =
      Except.ok ⟨false, 0.85, false, 2, 0⟩ :=
  ⟨rfl, rfl⟩

unseal Rat.add Rat.mul Rat.ofScientific Rat.inv Rat.sub in
/-- C6 counterexample: the amount 123.456 is below 1000 and its decimal
fraction has exactly 3 digits, yet (being ≥ 10) it is NOT discarded by the
rate filter: it is admitted as an AED candidate and, when it is the only
candidate found, the ≥100 fallback selects it as the claim's amount. -/
theorem c6_counterexample :
    admitCandidate "123.456" "AED" noContext =
      some ⟨123.456, "AED", 8, false, "other"⟩ ∧
    selectBestAmount [⟨123.456, "AED", 8, false, "other"⟩] =
      some ⟨123.456, "AED", 8, false, "other"⟩ ∧
    (123.456 : ℚ) < 1000 ∧ fracDigits "123.456" = 3 := by
  refine ⟨by decide, by decide, by norm_num, by decide⟩

unseal Rat.add Rat.mul Rat.ofScientific Rat.inv Rat.sub in
/-- C6 amended: the discard threshold is 10, not 1000 — every candidate
amount below 10 whose matched string has a decimal point and 3 or more
fraction digits is discarded as a likely currency-exchange rate: it is
never appended to the candidate list (and hence can never be selected as
the Claim's amount, since selection only draws from that list). -/
theorem c6_amended_rate_filter (s curr : String) (ctx : AmountContext) (v : ℚ)
    (hv : parseAmount s = some v) (h10 : v < 10)
    (hdot : s.data.contains '.' = true) (hfrac : 3 ≤ fracDigits s) :
    admitCandidate s curr ctx = none := by
  unfold admitCandidate
  rw [hv]
  have hrate : isLikelyRate v s = true := by
    unfold isLikelyRate
    rw [hdot]
    simp [h10, hfrac]
  simp [hrate]

unseal Rat.add Rat.mul Rat.ofScientific Rat.inv Rat.sub in
/-- C6 amended witness: the exchange rate 3.6725 (1 USD = 3.6725 AED) is
discarded. -/
theorem c6_amended_rate_filter_witness :
    parseAmount "3.6725" = some 3.6725 ∧
    admitCandidate "3.6725" "AED" noContext = none :=
  ⟨by decide,
   c6_amended_rate_filter "3.6725" "AED" noContext 3.6725 (by decide) (by norm_num)
     (by decide) (by decide)⟩

unseal Rat.add Rat.mul Rat.ofScientific Rat.inv Rat.sub in
/-- C7 counterexample: with subject extracted and an amount extracted (and
nothing else) the weighted component count is 1.5, which falls through
every branch to 0.30 — below the claimed 0.50 floor; likewise a count of
2.5 (two base components plus an amount) yields 0.30 instead of 0.70. -/
theorem c7_counterexample :
    claimConfidence true false false true = 0.30 ∧
    ¬ (0.50 ≤ claimConfidence true false false true) ∧
    claimConfidence false true true true = 0.30 := by
  refine ⟨by decide, by decide, by decide⟩

unseal Rat.add Rat.mul Rat.ofScientific Rat.inv Rat.sub in
/-- C7 amended: confidence is 0.85 when the weighted count (subject,
entity, start_date worth 1 each; amount worth 0.5) reaches 3, 0.70 when it
is exactly 2, 0.50 when it is exactly 1, and 0.30 for every other total —
including the half-integral totals 0.5, 1.5 and 2.5 that arise when an
amount is present.  Hence the "at least 0.50" floor holds whenever no
amount was extracted, while with an amount present the confidence is 0.85
if all three base components are there and 0.30 otherwise. -/
theorem c7_amended_confidence_mapping :
    (∀ s e d : Bool, (s || e || d) = true → 0.50 ≤ claimConfidence s e d false) ∧
    (∀ s e d : Bool, claimConfidence s e d true =
      if s && e && d then 0.85 else 0.30) ∧
    (∀ s e d a : Bool, claimConfidence s e d a = 0.30 ∨ claimConfidence s e d a = 0.50 ∨
      claimConfidence s e d a = 0.70 ∨ claimConfidence s e d a = 0.85) := by
  refine ⟨?_, ?_, ?_⟩ <;> decide

/-- C7 amended witness: subject alone (no amount) reaches the 0.50 floor. -/
theorem c7_amended_confidence_mapping_witness :
    0.50 ≤ claimConfidence true false false false :=
  c7_amended_confidence_mapping.1 true false false (by decide)

/-- C10 counterexample: 'driving_license' is a family value the
orchestrator can pass to DecisionEngine.decide (the DRIVING_LICENSE family
requires extraction and is mapped by family_to_type), and it is INSIDE the
mapped set of _infer_profile, resolving to DRIVING_LICENSE_MINIMAL rather
than the claimed IDENTITY_MINIMAL default. -/
theorem c10_counterexample :
    "driving_license" ∈ orchestratorDecideTypes ∧
    DecisionEngine.inferProfile "driving_license" =
      CertificationProfile.drivingLicenseMinimal ∧
    CertificationProfile.drivingLicenseMinimal ≠ CertificationProfile.identityMinimal := by
  refine ⟨by decide, by decide, by decide⟩

/-- C10 amended: every document_type outside the mapped set
(id, invoice, diploma, driving_license) silently defaults to
IDENTITY_MINIMAL with the identity required fields first_name, last_name,
date_of_birth and the identity 0.85 threshold; of the family values the
orchestrator actually passes, identity, financial, certificate and
corporate are outside the mapped set (and so judged against identity
requirements), while driving_license is inside it and gets its own
profile. -/
theorem c10_amended_profile_default (dt : String)
    (h1 : dt ≠ "id") (h2 : dt ≠ "invoice") (h3 : dt ≠ "diploma")
    (h4 : dt ≠ "driving_license") :
    DecisionEngine.inferProfile dt = CertificationProfile.identityMinimal ∧
    (profileConfig (DecisionEngine.inferProfile dt)).requiredFields =
      ["first_name", "last_name", "date_of_birth"] ∧
    (profileConfig (DecisionEngine.inferProfile dt)).minConfidence = 0.85 ∧
    ("identity" ∈ orchestratorDecideTypes ∧ "financial" ∈ orchestratorDecideTypes ∧
     "certificate" ∈ orchestratorDecideTypes ∧ "corporate" ∈ orchestratorDecideTypes) := by
  have hp : DecisionEngine.inferProfile dt = CertificationProfile.identityMinimal := by
    unfold DecisionEngine.inferProfile
    rw [if_neg h1, if_neg h2, if_neg h3, if_neg h4]
  refine ⟨hp, ?_, ?_, by decide, by decide, by decide, by decide⟩
  · rw [hp]; rfl
  · rw [hp]; rfl


/-- C10 amended witness: the financial family value defaults to the
identity profile. -/
theorem c10_amended_profile_default_witness :
    DecisionEngine.inferProfile "financial" = CertificationProfile.identityMinimal ∧
    (profileConfig (DecisionEngine.inferProfile "financial")).requiredFields =
      ["first_name", "last_name", "date_of_birth"] ∧
    (profileConfig (DecisionEngine.inferProfile "financial")).minConfidence = 0.85 ∧
    ("identity" ∈ orchestratorDecideTypes ∧ "financial" ∈ orchestratorDecideTypes ∧
     "certificate" ∈ orchestratorDecideTypes ∧ "corporate" ∈ orchestratorDecideTypes) :=
  c10_amended_profile_default "financial" (by decide) (by decide) (by decide) (by decide)

end Certifi

namespace Certifi

/-! ## List lemmas for the amount-selection proof -/

/-- Stable insertion grows the length by one. -/
theorem insortStable_length (le : AmountCandidate → AmountCandidate → Bool)
    (x : AmountCandidate) (l : List AmountCandidate) :
    (insortStable le x l).length = l.length + 1 := by
  induction l with
  | nil => rfl
  | cons y ys ih =>
    unfold insortStable
    split
    · rfl
    · simp [ih]

/-- The stable sort preserves length. -/
theorem pySort_length (le : AmountCandidate → AmountCandidate → Bool)
    (l : List AmountCandidate) : (pySort le l).length = l.length := by
  induction l with
  | nil => rfl
  | cons x xs ih => simp [pySort, insortStable_length, ih]

/-- A maximum can only come from a nonempty list. -/
theorem maxByAmount_ne_nil {l : List AmountCandidate} {x : AmountCandidate}
    (h : maxByAmount l = some x) : l ≠ [] := by
  intro hl
  subst hl
  exact absurd h (by simp [maxByAmount])

/-- A second-largest element forces at least two elements. -/
theorem secondByAmount_two_le {l : List AmountCandidate} {x : AmountCandidate}
    (h : secondByAmount l = some x) : 2 ≤ l.length := by
  unfold secondByAmount at h
  obtain ⟨hlt, -⟩ := List.getElem?_eq_some.mp h
  rw [sortByAmountDesc, pySort_length] at hlt
  omega

unseal Rat.add Rat.mul Rat.ofScientific Rat.inv Rat.sub in
/-- C5 counterexample.  First scenario: two significant candidates whose
larger amount is EXACTLY 10 times the smaller; the strict comparison at
line 813/831 does not fire, the 5x fallback is blocked by the larger
candidate's low priority, and the sort-by-priority winner (the SMALLER
amount) is selected — refuting "at least 10 times".  Second scenario: with
an AED candidate present the dominance comparison is confined to the AED
pool, so a non-AED candidate 50 times larger than every other candidate is
passed over — refuting "regardless ... " for mixed-currency pools. -/
theorem c5_counterexample :
    selectBestAmount
        [⟨1000, "USD", 0, false, "annual_total"⟩, ⟨10000, "USD", 8, false, "other"⟩] =
      some ⟨1000, "USD", 0, false, "annual_total"⟩ ∧
    (10000 : ℚ) = 10 * 1000 ∧
    selectBestAmount
        [⟨1000, "AED", 5, false, "other"⟩, ⟨50000, "USD", 5, false, "other"⟩] =
      some ⟨1000, "AED", 5, false, "other"⟩ ∧
    ((1000 : ℚ) * 10 < 50000) := by
  refine ⟨by decide, by decide, by decide, by decide⟩

/-- C5 amended: within the pool the source actually compares — the AED
candidates of the significant (≥1000, non-secondary) list when any AED
candidate exists, otherwise the whole significant list — whenever the
largest candidate is STRICTLY more than 10 times the second-largest, that
largest candidate is selected as the claim amount regardless of the
candidates' declared priority buckets. -/
theorem c5_amended_dominance (found : List AmountCandidate)
    (largest second : AmountCandidate)
    (hmax : maxByAmount (comparePool found) = some largest)
    (hsec : secondByAmount (comparePool found) = some second)
    (hdom : second.amount * 10 < largest.amount) :
    selectBestAmount found = some largest := by
  have hpool_len : 2 ≤ (comparePool found).length := secondByAmount_two_le hsec
  have hpool_ne : comparePool found ≠ [] := by
    intro h
    rw [h] at hpool_len
    simp at hpool_len
  have hsig_ne : found.filter (fun a => decide (1000 ≤ a.amount) && !a.isSecondary) ≠ [] := by
    intro hs
    apply hpool_ne
    simp [comparePool, hs, sortCands, pySort]
  have hfound_ne : found ≠ [] := by
    intro h
    apply hsig_ne
    rw [h]
    rfl
  have hfound_empty : found.isEmpty = false := by
    cases found
    · exact absurd rfl hfound_ne
    · rfl
  have hsig_empty :
      (found.filter (fun a => decide (1000 ≤ a.amount) && !a.isSecondary)).isEmpty = false := by
    cases hc : found.filter (fun a => decide (1000 ≤ a.amount) && !a.isSecondary)
    · exact absurd hc hsig_ne
    · rfl
  unfold selectBestAmount
  simp only [hfound_empty, hsig_empty, Bool.false_eq_true, if_false]
  unfold selectFromSignificant
  split
  · next heq => exact absurd heq hpool_ne
  · next p0 prest heq =>
    rw [heq] at hmax hsec hpool_len
    have hprest : prest.isEmpty = false := by
      cases prest
      · simp at hpool_len
      · rfl
    rw [hprest]
    simp only [Bool.false_eq_true, if_false]
    split
    · next hml hsl =>
      rw [hmax] at hml
      rw [hsec] at hsl
      injection hml with hml
      injection hsl with hsl
      subst hml
      subst hsl
      rw [if_pos hdom]
    · next hcontra =>
      exact (hcontra largest second hmax hsec).elim

unseal Rat.add Rat.mul Rat.ofScientific Rat.inv Rat.sub in
/-- C5 amended witness: 10001 strictly dominates 1000 tenfold, so it is
selected despite its low priority. -/
theorem c5_amended_dominance_witness :
    maxByAmount (comparePool
        [⟨1000, "USD", 0, false, "annual_total"⟩, ⟨10001, "USD", 8, false, "other"⟩]) =
      some ⟨10001, "USD", 8, false, "other"⟩ ∧
    secondByAmount (comparePool
        [⟨1000, "USD", 0, false, "annual_total"⟩, ⟨10001, "USD", 8, false, "other"⟩]) =
      some ⟨1000, "USD", 0, false, "annual_total"⟩ ∧
    selectBestAmount
        [⟨1000, "USD", 0, false, "annual_total"⟩, ⟨10001, "USD", 8, false, "other"⟩] =
      some ⟨10001, "USD", 8, false, "other"⟩ :=
  ⟨by decide, by decide,
   c5_amended_dominance
     [⟨1000, "USD", 0, false, "annual_total"⟩, ⟨10001, "USD", 8, false, "other"⟩]
     ⟨10001, "USD", 8, false, "other"⟩ ⟨1000, "USD", 0, false, "annual_total"⟩
     (by decide) (by decide) (by decide)⟩

unseal Rat.add Rat.mul Rat.ofScientific Rat.inv Rat.sub in
/-- C9 counterexample: the second score table differs from the first only
by three additional hard-evidence matches for the employee role (realised
by appending, e.g., "employment agreement", "employee of X", "X is an
employee" to a text whose contractor evidence is "freelance contract" and
"contractor shall").  The added hard evidence flips the winner from
contractor (2 hard matches, confidence 0.90 + 0.10 family boost = 0.98 for
family contract) to employee (3 hard matches, confidence capped 0.95, no
family boost), so the confidence of the returned RoleResult DECREASES from
0.98 to 0.95 although the number of hard-evidence signals strictly
increased and nothing else changed. -/
theorem c9_counterexample :
    (RoleInferenceEngine.infer
        [⟨.contractor, 2, 0⟩, ⟨.employee, 0, 0⟩] "contract").confidence = 0.98 ∧
    (RoleInferenceEngine.infer
        [⟨.contractor, 2, 0⟩, ⟨.employee, 3, 0⟩] "contract").confidence = 0.95 ∧
    (0.95 : ℚ) < 0.98 := by
  refine ⟨by decide, by decide, by decide⟩

/-- C9 amended: when the extra hard-evidence signals belong to the winning
role — i.e. both inputs elect the same role, with the same soft-evidence
count and at least as many hard matches — the RoleResult confidence never
decreases.  (Extra hard evidence for a DIFFERENT role can change the
winner and lower the confidence, as the counterexample shows.) -/
theorem c9_amended_monotonicity (l l' : List RoleScore) (family : String)
    (b b' : RoleScore) (hb : pickBestRole l = some b) (hb' : pickBestRole l' = some b')
    (hrole : b'.role = b.role) (hsoft : b'.soft = b.soft) (hhard : b.hard ≤ b'.hard) :
    (RoleInferenceEngine.infer l family).confidence ≤
      (RoleInferenceEngine.infer l' family).confidence := by
  unfold RoleInferenceEngine.infer
  rw [hb, hb']
  simp only
  rw [hrole, hsoft]
  exact finalRoleConfidence_mono _ _ _ _ hhard

/-- C9 amended witness: the same contractor winner with one more hard
match never loses confidence. -/
theorem c9_amended_monotonicity_witness :
    (RoleInferenceEngine.infer [⟨.contractor, 1, 0⟩] "contract").confidence ≤
      (RoleInferenceEngine.infer [⟨.contractor, 2, 0⟩] "contract").confidence :=
  c9_amended_monotonicity [⟨.contractor, 1, 0⟩] [⟨.contractor, 2, 0⟩] "contract"
    ⟨.contractor, 1, 0⟩ ⟨.contractor, 2, 0⟩ (by decide) (by decide) rfl rfl (by decide)

end Certifi

namespace Certifi

/-! ## Bounds helpers for the confidence invariant -/

/-- Risk factors are nonnegative. -/
theorem riskFactor_nonneg (ts : Option String) : 0 ≤ riskFactor ts := by
  unfold riskFactor
  split <;> norm_num

/-- The family score confidence is bounded whenever the accumulated
co-occurrence boost is nonnegative (it is a sum of the constants 0.25,
0.20 from SEMANTIC_CO_OCCURRENCE). -/
theorem familyScoreConfidence_bounds (kw st : Nat) (dl : Bool) (nk ns : Nat)
    (cb : ℚ) (ic : Bool) (hcb : 0 ≤ cb) :
    0 ≤ familyScoreConfidence kw st dl nk ns cb ic ∧
      familyScoreConfidence kw st dl nk ns cb ic ≤ 0.98 := by
  unfold familyScoreConfidence
  simp only []
  have hnorm :
      0 ≤ (if 0 < nk * 3 + ns * 3 then
             min (((kw * 3 + st * (if dl then 2 else 3) : Nat) : ℚ) /
               ((nk * 3 + ns * 3 : Nat) : ℚ)) 0.98
           else 0) := by
    split
    · exact le_min (by positivity) (by norm_num)
    · exact le_refl 0
  have hboost :
      0 ≤ min 0.98
          ((if 0 < nk * 3 + ns * 3 then
              min (((kw * 3 + st * (if dl then 2 else 3) : Nat) : ℚ) /
                ((nk * 3 + ns * 3 : Nat) : ℚ)) 0.98
            else 0) + cb) ∧
      min 0.98
          ((if 0 < nk * 3 + ns * 3 then
              min (((kw * 3 + st * (if dl then 2 else 3) : Nat) : ℚ) /
                ((nk * 3 + ns * 3 : Nat) : ℚ)) 0.98
            else 0) + cb) ≤ 0.98 :=
    min_cap_bounds (by norm_num) (by linarith)
  split
  · exact ⟨le_trans hboost.1 (le_max_left _ _), max_le hboost.2 (by norm_num)⟩
  · exact hboost

/-- The assigned base confidence always lies in [0, 0.85]. -/
theorem baseConfidenceOpt_mem (sig : ClaimSignals) (base0 : ℚ)
    (h : baseConfidenceOpt sig = some base0) : 0 ≤ base0 ∧ base0 ≤ 0.85 := by
  unfold baseConfidenceOpt at h
  split_ifs at h <;>
    first
    | (injection h with h; subst h; constructor <;> norm_num)
    | (exact absurd h (by simp))

/-- The boosted confidence stays within [0, 0.95] for a base in [0, 0.85]. -/
theorem boostedConfidence_bounds (sig : ClaimSignals) (base0 : ℚ)
    (h0 : 0 ≤ base0) (h85 : base0 ≤ 0.85) :
    0 ≤ boostedConfidence sig base0 ∧ boostedConfidence sig base0 ≤ 0.95 := by
  unfold boostedConfidence
  have hsupp : (0 : ℚ) ≤ ((supportingScore sig : Nat) : ℚ) * 0.10 := by positivity
  have hb1 :
      0 ≤ (if 0 < supportingScore sig then
             min 0.95 (base0 + ((supportingScore sig : Nat) : ℚ) * 0.10)
           else base0) ∧
      (if 0 < supportingScore sig then
         min 0.95 (base0 + ((supportingScore sig : Nat) : ℚ) * 0.10)
       else base0) ≤ 0.95 := by
    split
    · exact min_cap_bounds (by norm_num) (by linarith)
    · exact ⟨h0, le_trans h85 (by norm_num)⟩
  simp only []
  split
  · exact min_cap_bounds (by norm_num) (by linarith [hb1.1])
  · exact hb1

/-- The boosted confidence never drops below a base of at least 0.85. -/
theorem boostedConfidence_ge (sig : ClaimSignals) (base0 : ℚ)
    (h : 0.85 ≤ base0) : 0.85 ≤ boostedConfidence sig base0 := by
  unfold boostedConfidence
  have hsupp : (0 : ℚ) ≤ ((supportingScore sig : Nat) : ℚ) * 0.10 := by positivity
  have hb1 : (0.85 : ℚ) ≤
      (if 0 < supportingScore sig then
         min 0.95 (base0 + ((supportingScore sig : Nat) : ℚ) * 0.10)
       else base0) := by
    split
    · exact le_min (by norm_num) (by linarith)
    · exact h
  simp only []
  split
  · exact le_min (by norm_num) (by linarith)
  · exact hb1

/-- The certifiability threshold never exceeds 0.70. -/
theorem minConfThreshold_le (sig : ClaimSignals) : minConfThreshold sig ≤ 0.70 := by
  unfold minConfThreshold
  split <;> norm_num

/-- Confidence bound for every value a successful ClaimEvaluator.evaluate
returns (the cap is in fact 0.95). -/
theorem evaluate_ok_confidence_bounds (sig : ClaimSignals) (ev : ClaimEvaluation)
    (h : ClaimEvaluator.evaluate sig = Except.ok ev) :
    0 ≤ ev.claimsConfidence ∧ ev.claimsConfidence ≤ 0.95 := by
  unfold ClaimEvaluator.evaluate at h
  split at h
  · exact absurd h (by simp)
  · next base0 heq =>
    injection h with h
    subst h
    obtain ⟨h0, h85⟩ := baseConfidenceOpt_mem sig base0 heq
    exact boostedConfidence_bounds sig base0 h0 h85

/-- Confidence bound for DecisionEngine.decide, given inputs in the ranges
the pipeline supplies (family confidence in [0, 0.98], extraction
confidence nonnegative). -/
theorem decide_confidence_bounds (dt : String) (cc ec : ℚ) (ts : Option String)
    (fc : List (String × ℚ)) (mf : List String) (p : Option CertificationProfile)
    (h0 : 0 ≤ cc) (h98 : cc ≤ 0.98) (he : 0 ≤ ec) :
    0 ≤ (DecisionEngine.decide dt cc ec ts fc mf p).confidence ∧
      (DecisionEngine.decide dt cc ec ts fc mf p).confidence ≤ 0.98 := by
  unfold DecisionEngine.decide
  split
  all_goals simp only []
  all_goals (repeat' split)
  all_goals
    first
    | exact ⟨h0, h98⟩
    | exact ⟨le_min (mul_nonneg (le_min he h0) (riskFactor_nonneg ts)) (by norm_num),
        min_le_right _ _⟩
    | exact ⟨le_min (mul_nonneg (le_min he (by norm_num)) (riskFactor_nonneg ts)) (by norm_num),
        min_le_right _ _⟩

/-- C2: every confidence value the pipeline stages produce lies in the
closed interval [0, 0.98] (hence never equals 1.0, since 0.98 < 1):
the FamilyClassifier score stored for a qualifying family (with the
classifier's two unknown paths returning 0.0, also in range); the
RoleResult confidence for any per-role match counts; the claims_confidence
of every value ClaimEvaluator.evaluate returns (cap 0.95 ≤ 0.98);
the Claim confidence for any component combination; and the Decision
confidence, whenever the classification confidence handed in lies in
[0, 0.98] (as the orchestrator guarantees) and the extraction confidence
is nonnegative. -/
theorem c2_confidence_bounds :
    (∀ kw st dl nk ns cb ic, (0 : ℚ) ≤ cb →
       0 ≤ familyScoreConfidence kw st dl nk ns cb ic ∧
         familyScoreConfidence kw st dl nk ns cb ic ≤ 0.98) ∧
    (∀ scores family, 0 ≤ (RoleInferenceEngine.infer scores family).confidence ∧
       (RoleInferenceEngine.infer scores family).confidence ≤ 0.98) ∧
    (∀ sig ev, ClaimEvaluator.evaluate sig = Except.ok ev →
       0 ≤ ev.claimsConfidence ∧ ev.claimsConfidence ≤ 0.98) ∧
    (∀ s e d a, 0 ≤ claimConfidence s e d a ∧ claimConfidence s e d a ≤ 0.98) ∧
    (∀ dt cc ec ts fc mf p, (0 : ℚ) ≤ cc → cc ≤ 0.98 → (0 : ℚ) ≤ ec →
       0 ≤ (DecisionEngine.decide dt cc ec ts fc mf p).confidence ∧
         (DecisionEngine.decide dt cc ec ts fc mf p).confidence ≤ 0.98) := by
  refine ⟨familyScoreConfidence_bounds, ?_, ?_, ?_, decide_confidence_bounds⟩
  · intro scores family
    unfold RoleInferenceEngine.infer
    split
    · constructor <;> norm_num
    · next b _ => exact finalRoleConfidence_bounds b.hard b.soft _
  · intro sig ev h
    obtain ⟨h1, h2⟩ := evaluate_ok_confidence_bounds sig ev h
    exact ⟨h1, le_trans h2 (by norm_num)⟩
  · intro s e d a
    unfold claimConfidence
    split_ifs <;> constructor <;> norm_num

unseal Rat.add Rat.mul Rat.ofScientific Rat.inv Rat.sub in
/-- C2 witness: concrete instances discharging each hypothesis — the
classifier score of the engagement text, a successful evaluator run, and a
decision call with in-range confidences. -/
theorem c2_confidence_bounds_witness :
    (0 ≤ familyScoreConfidence 4 4 false 36 22 0.2 true ∧
       familyScoreConfidence 4 4 false 36 22 0.2 true ≤ 0.98) ∧
    (0 ≤ (⟨false, 0.85, false, 2, 0⟩ : ClaimEvaluation).claimsConfidence ∧
       (⟨false, 0.85, false, 2, 0⟩ : ClaimEvaluation).claimsConfidence ≤ 0.98) ∧
    (0 ≤ (DecisionEngine.decide "identity" 0.9 0.9 (some "mrz") [] [] none).confidence ∧
       (DecisionEngine.decide "identity" 0.9 0.9 (some "mrz") [] [] none).confidence ≤ 0.98) :=
  ⟨c2_confidence_bounds.1 4 4 false 36 22 0.2 true (by decide),
   c2_confidence_bounds.2.2.1 ⟨2, 0, 0, 0, 0, 0, false⟩ ⟨false, 0.85, false, 2, 0⟩ rfl,
   c2_confidence_bounds.2.2.2.2 "identity" 0.9 0.9 (some "mrz") [] [] none
     (by decide) (by decide) (by decide)⟩

/-- C8: the orchestrator's single exception boundary.  The embedded
process function is total — it never propagates an exception — and (i) if
any stage raised, the partially built result record is returned with the
stage's message appended to errors as "Pipeline error: ..." and
success = false; (ii) a result with success = true can only come from a
run in which no stage raised. -/
theorem c8_exception_boundary :
    (∀ st p r e, runPipeline st p = Except.error (r, e) →
       DocumentPipeline.process st p =
         { r with errors := r.errors ++ ["Pipeline error: " ++ e], success := false } ∧
       (DocumentPipeline.process st p).success = false ∧
       ("Pipeline error: " ++ e) ∈ (DocumentPipeline.process st p).errors) ∧
    (∀ st p, (DocumentPipeline.process st p).success = true →
       runPipeline st p = Except.ok (DocumentPipeline.process st p)) := by
  constructor
  · intro st p r e h
    have hp : DocumentPipeline.process st p =
        { r with errors := r.errors ++ ["Pipeline error: " ++ e], success := false } := by
      unfold DocumentPipeline.process
      rw [h]
    refine ⟨hp, ?_, ?_⟩
    · rw [hp]
    · rw [hp]
      simp
  · intro st p h
    unfold DocumentPipeline.process at h ⊢
    cases hr : runPipeline st p with
    | ok res => rfl
    | error pe =>
      rw [hr] at h
      rcases pe with ⟨r, e⟩
      simp at h

/-- C8 witness: with a classifier stage that raises "boom", the run aborts
with the initial record, and process returns success = false with
"Pipeline error: boom" recorded. -/
theorem c8_exception_boundary_witness :
    runPipeline failStages none = Except.error (initResult, "boom") ∧
    (DocumentPipeline.process failStages none).success = false ∧
    "Pipeline error: boom" ∈ (DocumentPipeline.process failStages none).errors :=
  ⟨rfl,
   (c8_exception_boundary.1 failStages none initResult "boom" rfl).2.1,
   (c8_exception_boundary.1 failStages none initResult "boom" rfl).2.2⟩

end Certifi

namespace Certifi

/-! ## C1: the claim-based contract run and the final canonical hash -/

set_option maxHeartbeats 4000000 in
unseal Rat.add Rat.mul Rat.ofScientific Rat.inv Rat.sub in
/-- C1 counterexample: on the contractor engagement document — text with
the "Client:" and "Contractor:" labels, the phrase "independent
contractor" and a valid date — ClaimEvaluator does report certifiable and
the pipeline does return family contract, certification_ready = true and
policy hash_only with a non-null canonical hash; but that canonical hash
is NOT sha256 of the raw file bytes (the claim's final conjunct): the
orchestrator unconditionally combines the claim-dictionary hash into it,
so the value is sha256 of the file hash concatenated with the claim hash
(the `file_hash` key holds sha256 of the file bytes; `canonical_hash`
differs from it). -/
theorem c1_counterexample :
    (match ClaimEvaluator.evaluate exSignals with
     | Except.ok ev => ev.certifiable
     | Except.error _ => false) = true ∧
    DocumentPipeline.process exStages none =
      ⟨true, some "contract", true, false, some "hash_only", some "low",
       some "hash_only", some "claim_based",
       some "1d8379106e42a5a4d714cc71d251de016f3221e646d581a6a12f673eb3dda930",
       some "8cfebb2fcac3f8bbff4909d4d28a9503b977837f0636b96dfd1c91bcedbd8c48",
       some "49d12bb8db27c84d18329eb107b4c36e58e69cd760af21bf643705cf2028dbd7", []⟩ ∧
    sha256hex exFileBytes =
      "1d8379106e42a5a4d714cc71d251de016f3221e646d581a6a12f673eb3dda930" ∧
    ("49d12bb8db27c84d18329eb107b4c36e58e69cd760af21bf643705cf2028dbd7" : String) ≠
      "1d8379106e42a5a4d714cc71d251de016f3221e646d581a6a12f673eb3dda930" :=
  ⟨by decide, by decide, by decide, by decide⟩

/-- C1 amended: for every run whose text passes the length gate, whose
family classification is any non-unknown family, and whose claim-pattern
scan finds both a client and a contractor signal (the claim's premise),
the evaluator returns certifiable = true, and the pipeline returns
success, document family contract, certification_ready = true, policy
hash_only, `file_hash` = sha256(file_bytes), and a non-null
canonical_hash equal to sha256 of the file hash concatenated with the
claim-dictionary hash — not sha256(file_bytes) itself. -/
theorem c1_amended_claim_override_rehash (text : String) (famRes : FamilyRes)
    (sig : ClaimSignals) (roleRes : RoleResult) (claim : ClaimRes)
    (schemaFn : String → String → Except String SchemaRes)
    (valFn : SchemaRes → Except String (List String)) (fileBytes : List Nat)
    (hlen : 10 ≤ (pyStrip text).length)
    (hfam : famRes.family ≠ DocumentFamily.unknown)
    (hc : 0 < sig.hasClient) (hk : 0 < sig.hasContractor) :
    ∃ ev : ClaimEvaluation,
      ClaimEvaluator.evaluate sig = Except.ok ev ∧ ev.certifiable = true ∧
      (DocumentPipeline.process
          (stagesOf text famRes sig roleRes claim schemaFn valFn fileBytes) none).success
        = true ∧
      (DocumentPipeline.process
          (stagesOf text famRes sig roleRes claim schemaFn valFn fileBytes) none).documentFamily
        = some "contract" ∧
      (DocumentPipeline.process
          (stagesOf text famRes sig roleRes claim schemaFn valFn fileBytes) none).certificationReady
        = true ∧
      (DocumentPipeline.process
          (stagesOf text famRes sig roleRes claim schemaFn valFn fileBytes) none).certificationPolicy
        = some "hash_only" ∧
      (DocumentPipeline.process
          (stagesOf text famRes sig roleRes claim schemaFn valFn fileBytes) none).fileHash
        = some (sha256hex fileBytes) ∧
      (DocumentPipeline.process
          (stagesOf text famRes sig roleRes claim schemaFn valFn fileBytes) none).claimHash
        = some (sha256hex (strBytes claim.json)) ∧
      (DocumentPipeline.process
          (stagesOf text famRes sig roleRes claim schemaFn valFn fileBytes) none).canonicalHash
        = some (sha256hex (strBytes
            (sha256hex fileBytes ++ sha256hex (strBytes claim.json)))) := by
  have h2 : 2 ≤ criticalScore sig := by
    unfold criticalScore
    omega
  have hbase : baseConfidenceOpt sig = some 0.85 := by
    unfold baseConfidenceOpt
    rw [if_pos h2]
  have hicr : isContractorRel sig = true := by
    unfold isContractorRel
    rw [decide_eq_true hc, decide_eq_true hk]
    simp
  have hb85 : (0.85 : ℚ) ≤ boostedConfidence sig 0.85 :=
    boostedConfidence_ge sig 0.85 le_rfl
  have hb70 : (0.70 : ℚ) ≤ boostedConfidence sig 0.85 :=
    le_trans (by norm_num) hb85
  have hmin : minConfThreshold sig ≤ boostedConfidence sig 0.85 :=
    le_trans (minConfThreshold_le sig) hb70
  have hev : ClaimEvaluator.evaluate sig =
      Except.ok ⟨true, boostedConfidence sig 0.85, true,
        criticalScore sig, supportingScore sig⟩ := by
    unfold ClaimEvaluator.evaluate
    rw [hbase]
    simp only []
    rw [hicr, decide_eq_true hmin]
    rfl
  have hrun : ∃ hrv rl,
      runPipeline (stagesOf text famRes sig roleRes claim schemaFn valFn fileBytes) none =
        Except.ok ⟨true, some "contract", true, hrv, some "hash_only", rl,
          some "hash_only", some "claim_based", some (sha256hex fileBytes),
          some (sha256hex (strBytes claim.json)),
          some (sha256hex (strBytes
            (sha256hex fileBytes ++ sha256hex (strBytes claim.json)))), []⟩ := by
    unfold runPipeline stagesOf
    simp only []
    rw [if_neg (Nat.not_lt.mpr hlen), if_neg hfam, hev]
    simp only []
    rw [if_pos hb70, decide_eq_true hb70]
    exact ⟨_, _, rfl⟩
  obtain ⟨hrv, rl, heq⟩ := hrun
  have hproc : DocumentPipeline.process
      (stagesOf text famRes sig roleRes claim schemaFn valFn fileBytes) none =
      ⟨true, some "contract", true, hrv, some "hash_only", rl,
       some "hash_only", some "claim_based", some (sha256hex fileBytes),
       some (sha256hex (strBytes claim.json)),
       some (sha256hex (strBytes
         (sha256hex fileBytes ++ sha256hex (strBytes claim.json)))), []⟩ := by
    unfold DocumentPipeline.process
    rw [heq]
  refine ⟨_, hev, rfl, ?_, ?_, ?_, ?_, ?_, ?_, ?_⟩
  all_goals rw [hproc]

unseal Rat.add Rat.mul Rat.ofScientific Rat.inv Rat.sub in
/-- C1 amended witness: the concrete contractor-engagement run satisfies
the amended statement; its hypotheses (length gate, non-unknown family,
both critical signals) hold by evaluation. -/
theorem c1_amended_claim_override_rehash_witness :
    ∃ ev : ClaimEvaluation,
      ClaimEvaluator.evaluate exSignals = Except.ok ev ∧ ev.certifiable = true ∧
      (DocumentPipeline.process
          (stagesOf exText exFamilyRes exSignals exRoleRes ⟨exClaimJson⟩
            exSchemaFn exValidateFn exFileBytes) none).success = true ∧
      (DocumentPipeline.process
          (stagesOf exText exFamilyRes exSignals exRoleRes ⟨exClaimJson⟩
            exSchemaFn exValidateFn exFileBytes) none).documentFamily = some "contract" ∧
      (DocumentPipeline.process
          (stagesOf exText exFamilyRes exSignals exRoleRes ⟨exClaimJson⟩
            exSchemaFn exValidateFn exFileBytes) none).certificationReady = true ∧
      (DocumentPipeline.process
          (stagesOf exText exFamilyRes exSignals exRoleRes ⟨exClaimJson⟩
            exSchemaFn exValidateFn exFileBytes) none).certificationPolicy = some "hash_only" ∧
      (DocumentPipeline.process
          (stagesOf exText exFamilyRes exSignals exRoleRes ⟨exClaimJson⟩
            exSchemaFn exValidateFn exFileBytes) none).fileHash
        = some (sha256hex exFileBytes) ∧
      (DocumentPipeline.process
          (stagesOf exText exFamilyRes exSignals exRoleRes ⟨exClaimJson⟩
            exSchemaFn exValidateFn exFileBytes) none).claimHash
        = some (sha256hex (strBytes (ClaimRes.mk exClaimJson).json)) ∧
      (DocumentPipeline.process
          (stagesOf exText exFamilyRes exSignals exRoleRes ⟨exClaimJson⟩
            exSchemaFn exValidateFn exFileBytes) none).canonicalHash
        = some (sha256hex (strBytes
            (sha256hex exFileBytes ++ sha256hex (strBytes (ClaimRes.mk exClaimJson).json)))) :=
  c1_amended_claim_override_rehash exText exFamilyRes exSignals exRoleRes
    ⟨exClaimJson⟩ exSchemaFn exValidateFn exFileBytes
    (by decide) (by decide) (by decide) (by decide)

end Certifi
